import Mathlib

/-!
Shallow embedding of the location-resolution and map-rendering core of
`src/app.py` (function `main`, the nested cached function `geocode_location`,
and the folium map-building block).

Modelling conventions:
* Latitude/longitude are Python floats in the source; no claim depends on
  floating-point rounding, so they are embedded as exact rationals.
* The external geocoding provider (`geolocator.geocode`) is modelled as a
  function from the attempt index to the outcome of that network attempt:
  success with an optional match (geopy returns `None` when the provider
  finds no match), a `GeocoderTimedOut` exception, a `GeocoderServiceError`
  exception, or any other exception.  Each consultation of this function is
  one network call; the per-attempt `timeout=10` argument only influences
  whether a given attempt times out, which the provider function already
  encodes, so it is not threaded separately.
* `@st.cache_data(ttl=3600)` keys an entry by the function arguments (in the
  app every call passes only `location_name`, so the key reduces to the query
  string) and stores whatever value the function returns -- including `None`.
  It is embedded as an association list from query string to a stored return
  value plus an expiry timestamp, with lazy expiry on read.
* Streamlit side effects (`st.sidebar.warning`, `st.sidebar.error`,
  `st.markdown`, `st.info`) are embedded as counters/flags on the result.
-/

namespace TravelPlanner

/-- A resolved coordinate pair (`location.latitude`, `location.longitude`). -/
structure Coordinate where
  latitude : ℚ
  longitude : ℚ
deriving DecidableEq

/-- Outcome of one call to `geolocator.geocode(location_name, timeout=timeout)`:
a normal return (geopy yields `None` when no match is found), one of the two
exceptions caught by the retry loop, or any other exception. -/
inductive AttemptResult where
  | ok (result : Option Coordinate)
  | geocoderTimedOut
  | geocoderServiceError
  | otherException
deriving DecidableEq

/-- Result of running the body of `geocode_location` (no cache): the returned
value, the number of network calls made, and the number of
`st.sidebar.warning` / `st.sidebar.error` messages emitted. -/
structure GeoResult where
  value : Option Coordinate
  calls : Nat
  warnings : Nat
  errors : Nat
deriving DecidableEq

/-- The retry loop of `geocode_location`:
`for attempt in range(retries): try: return geolocator.geocode(...)`
`except (GeocoderTimedOut, GeocoderServiceError): if attempt < retries - 1:`
`continue` else warn and return `None`; any other exception escapes to the
outer handler, which emits `st.sidebar.error` and returns `None`.
`i` is the current attempt index, the second argument the number of loop
iterations still available (`retries - i`); with `0` remaining the `for` loop
ends and the Python function falls through, returning `None`. -/
def geocodeAttempts (provider : Nat → AttemptResult) : Nat → Nat → GeoResult
  | _, 0 => ⟨none, 0, 0, 0⟩
  | i, r + 1 =>
    match provider i with
    | .ok c => ⟨c, 1, 0, 0⟩
    | .geocoderTimedOut | .geocoderServiceError =>
      if 0 < r then
        let rest := geocodeAttempts provider (i + 1) r
        ⟨rest.value, rest.calls + 1, rest.warnings, rest.errors⟩
      else ⟨none, 1, 1, 0⟩
    | .otherException => ⟨none, 1, 0, 1⟩

/-- One stored cache record of `@st.cache_data(ttl=3600)`: the cached return
value of `geocode_location` (which may be `none`) and its expiry instant. -/
structure CacheEntry where
  value : Option Coordinate
  expiresAt : Nat
deriving DecidableEq

/-- The `st.cache_data` store, keyed by the exact query string. -/
abbrev Cache := List (String × CacheEntry)

/-- First entry stored under key `q`, if any. -/
def cacheFind : Cache → String → Option CacheEntry
  | [], _ => none
  | e :: rest, q => if e.1 = q then some e.2 else cacheFind rest q

/-- Drop every entry stored under key `q`. -/
def cacheErase : Cache → String → Cache
  | [], _ => []
  | e :: rest, q => if e.1 = q then cacheErase rest q else e :: cacheErase rest q

/-- Store `entry` under key `q`, replacing any previous entry for `q`. -/
def cacheInsert (c : Cache) (q : String) (entry : CacheEntry) : Cache :=
  (q, entry) :: cacheErase c q

/-- `st.cache_data` lookup with lazy TTL expiry: a present entry counts only
while `now` is before its expiry. -/
def cacheLookup (c : Cache) (q : String) (now : Nat) : Option (Option Coordinate) :=
  match cacheFind c q with
  | some e => if now < e.expiresAt then some e.value else none
  | none => none

/-- `ttl=3600` of the `st.cache_data` decorator. -/
def ttlSeconds : Nat := 3600

/-- `retries=3` default of `geocode_location`. -/
def defaultRetries : Nat := 3

/-- Result of one call to the cached `geocode_location`, together with the
cache state after the call. -/
structure ResolveResult where
  value : Option Coordinate
  calls : Nat
  warnings : Nat
  errors : Nat
  cache : Cache
deriving DecidableEq

/-- The cached `geocode_location(location_name, retries=3, timeout=10)`:
on a live cache entry, return the stored value with no network call;
otherwise run the retry loop and store its return value -- whatever it is,
`None` included -- under the query string with expiry `now + ttl`. -/
def geocode_location (provider : Nat → AttemptResult) (cache : Cache) (now : Nat)
    (location_name : String) (retries : Nat) : ResolveResult :=
  match cacheLookup cache location_name now with
  | some v => ⟨v, 0, 0, 0, cache⟩
  | none =>
    let r := geocodeAttempts provider 0 retries
    ⟨r.value, r.calls, r.warnings, r.errors,
      cacheInsert cache location_name ⟨r.value, now + ttlSeconds⟩⟩

/-- Resolution of one location input in `main`: an empty (falsy) string never
reaches `geocode_location` (`if starting_location: ... else: None`), so it
costs no network call and writes nothing to the cache. -/
def resolveLocation (provider : Nat → AttemptResult) (cache : Cache) (now : Nat)
    (query : String) : ResolveResult :=
  if query = "" then ⟨none, 0, 0, 0, cache⟩
  else geocode_location provider cache now query defaultRetries

/-- A folium marker: coordinate, tooltip text, and the optional
`folium.Icon(color=...)` hint (`"red"` on the destination marker). -/
structure Marker where
  coordinate : Coordinate
  tooltip : String
  color : Option String
deriving DecidableEq

/-- The map produced by the folium block of `main`: `location=` center,
`zoom_start=` zoom, the markers in insertion order, and the optional
`fit_bounds` pair. -/
structure MapDescriptor where
  center : Coordinate
  zoom : Nat
  markers : List Marker
  bounds : Option (Coordinate × Coordinate)
deriving DecidableEq

/-- The map-construction block of `main`: when at least one coordinate is
present, center on the destination if present else the start, use
`zoom_start=10`, add the start marker (plain) then the destination marker
(red), and call `fit_bounds([start, dest])` only when both are present.
When both are absent no map is built (`st.info` branch). -/
def buildMap (s d : Option Coordinate) (sName dName : String) : Option MapDescriptor :=
  if s.isSome || d.isSome then
    let center :=
      match d with
      | some c => c
      | none =>
        match s with
        | some c => c
        | none => ⟨0, 0⟩
    let startMarkers : List Marker :=
      match s with
      | some c => [⟨c, sName, none⟩]
      | none => []
    let destMarkers : List Marker :=
      match d with
      | some c => [⟨c, dName, some "red"⟩]
      | none => []
    let bounds :=
      match s, d with
      | some cs, some cd => some (cs, cd)
      | _, _ => none
    some ⟨center, 10, startMarkers ++ destMarkers, bounds⟩
  else
    none

/-- Python truthiness of `st.session_state.itinerary`: `None` and the empty
string are falsy. -/
def itineraryTruthy (itin : Option String) : Bool :=
  match itin with
  | some t => !t.isEmpty
  | none => false

/-- What the map section of the page displays: the map descriptor (if any),
whether the stored itinerary is rendered, and whether the informational
`st.info` prompt is shown instead of a map. -/
structure PageView where
  mapDescriptor : Option MapDescriptor
  itineraryShown : Bool
  infoShown : Bool
deriving DecidableEq

/-- The display logic at the end of the map block of `main`: the itinerary markdown
is rendered inside the `if starting_loc_coords or destination_loc_coords:`
branch ("Move itinerary display inside the map block"); the `else` branch
shows only `st.info(...)`. -/
def renderMapSection (s d : Option Coordinate) (sName dName : String)
    (itin : Option String) : PageView :=
  match buildMap s d sName dName with
  | some m => ⟨some m, itineraryTruthy itin, false⟩
  | none => ⟨none, false, true⟩

/-- One pass of the geocode-and-render pipeline of `main`: resolve the starting
location, then the destination (sequentially, sharing the cache), then render
the map section with the stored itinerary. -/
def runPage (p1 p2 : Nat → AttemptResult) (cache : Cache) (now : Nat)
    (startingLocation destination : String) (itin : Option String) :
    PageView × Cache :=
  let r1 := resolveLocation p1 cache now startingLocation
  let r2 := resolveLocation p2 r1.cache now destination
  (renderMapSection r1.value r2.value startingLocation destination itin, r2.cache)

/-- A provider whose every attempt succeeds with coordinate (1, 1). -/
def alwaysOk11 : Nat → AttemptResult := fun _ => .ok (some ⟨1, 1⟩)

/-- A provider whose every attempt times out. -/
def alwaysTimeout : Nat → AttemptResult := fun _ => .geocoderTimedOut

/-- A provider whose every attempt raises a non-retryable exception. -/
def alwaysOtherError : Nat → AttemptResult := fun _ => .otherException

/-- A provider whose every attempt succeeds but finds no match. -/
def alwaysNotFound : Nat → AttemptResult := fun _ => .ok none

theorem cacheFind_insert_self (c : Cache) (q : String) (e : CacheEntry) :
    cacheFind (cacheInsert c q e) q = some e := by
  simp [cacheInsert, cacheFind]

theorem cacheFind_erase_ne (c : Cache) (q q' : String) (h : q ≠ q') :
    cacheFind (cacheErase c q) q' = cacheFind c q' := by
  induction c with
  | nil => rfl
  | cons e rest ih =>
    obtain ⟨k, v⟩ := e
    by_cases he : k = q
    · subst he
      simp [cacheErase, cacheFind, ih, h]
    · by_cases h2 : k = q' <;>
        simp [cacheErase, cacheFind, he, h2, ih, Ne.symm h]

theorem cacheFind_insert_ne (c : Cache) (q q' : String) (e : CacheEntry)
    (h : q ≠ q') : cacheFind (cacheInsert c q e) q' = cacheFind c q' := by
  simp [cacheInsert, cacheFind, h, cacheFind_erase_ne c q q' h]

theorem geocode_location_miss (provider : Nat → AttemptResult) (c : Cache)
    (t : Nat) (q : String) (n : Nat) (h : cacheLookup c q t = none) :
    geocode_location provider c t q n =
      ⟨(geocodeAttempts provider 0 n).value, (geocodeAttempts provider 0 n).calls,
        (geocodeAttempts provider 0 n).warnings, (geocodeAttempts provider 0 n).errors,
        cacheInsert c q ⟨(geocodeAttempts provider 0 n).value, t + ttlSeconds⟩⟩ := by
  simp [geocode_location, h]

theorem geocode_location_hit (provider : Nat → AttemptResult) (c : Cache)
    (t : Nat) (q : String) (n : Nat) (v : Option Coordinate)
    (h : cacheLookup c q t = some v) :
    geocode_location provider c t q n = ⟨v, 0, 0, 0, c⟩ := by
  simp [geocode_location, h]

theorem resolveLocation_ne (provider : Nat → AttemptResult) (c : Cache)
    (t : Nat) (q : String) (h : q ≠ "") :
    resolveLocation provider c t q = geocode_location provider c t q defaultRetries := by
  simp [resolveLocation, h]

theorem resolveLocation_cacheFind_other (provider : Nat → AttemptResult)
    (c : Cache) (t : Nat) (q q' : String) (h : q ≠ q') :
    cacheFind (resolveLocation provider c t q).cache q' = cacheFind c q' := by
  by_cases hq : q = ""
  · simp [resolveLocation, hq]
  · rw [resolveLocation_ne provider c t q hq]
    rcases hl : cacheLookup c q t with _ | v
    · rw [geocode_location_miss provider c t q defaultRetries hl]
      exact cacheFind_insert_ne c q q' _ h
    · rw [geocode_location_hit provider c t q defaultRetries v hl]

/-- C5: with both coordinates present, the map is centered on the destination,
carries the start marker first and the red destination marker second, and
fits bounds to the pair (start, dest). -/
theorem build_both_present_descriptor (a b : Coordinate) (n1 n2 : String) :
    buildMap (some a) (some b) n1 n2 =
      some ⟨b, 10, [⟨a, n1, none⟩, ⟨b, n2, some "red"⟩], some (a, b)⟩ := by
  simp [buildMap]

/-- C6: with exactly one coordinate present, the map is centered on it with
the fixed zoom 10, a single marker at it, and no bounds. -/
theorem build_exactly_one_present_descriptor (c : Coordinate) (n1 n2 : String) :
    buildMap (some c) none n1 n2 = some ⟨c, 10, [⟨c, n1, none⟩], none⟩ ∧
    buildMap none (some c) n1 n2 = some ⟨c, 10, [⟨c, n2, some "red"⟩], none⟩ := by
  constructor <;> simp [buildMap]

/-- C7: with both coordinates absent, no map descriptor is constructed and
the informational prompt is shown instead. -/
theorem build_both_absent_no_map (n1 n2 : String) (itin : Option String) :
    buildMap none none n1 n2 = none ∧
    (renderMapSection none none n1 n2 itin).mapDescriptor = none ∧
    (renderMapSection none none n1 n2 itin).infoShown = true := by
  refine ⟨rfl, ?_, ?_⟩ <;> simp [renderMapSection, buildMap]

/-- C9: an empty query is answered immediately with an absent coordinate
(the Unspecified outcome): zero network calls, no warning or error, and the
cache is left untouched. -/
theorem empty_query_no_call_no_cache_write (provider : Nat → AttemptResult)
    (c : Cache) (t : Nat) :
    resolveLocation provider c t "" = ⟨none, 0, 0, 0, c⟩ := by
  simp [resolveLocation]

/-- C2 counterexample: a failed resolution of "X" (non-retryable provider
exception) does write a cache entry, and a second resolve of "X" within the
TTL -- against a provider that would now succeed with (1, 1) -- makes zero
network calls and returns the cached failure instead of a fresh lookup. -/
theorem failed_lookup_is_cached_cex :
    (resolveLocation alwaysOtherError [] 0 "X").value = none ∧
    (resolveLocation alwaysOtherError [] 0 "X").cache = [("X", ⟨none, 3600⟩)] ∧
    (resolveLocation alwaysOk11 (resolveLocation alwaysOtherError [] 0 "X").cache 1 "X").calls = 0 ∧
    (resolveLocation alwaysOk11 (resolveLocation alwaysOtherError [] 0 "X").cache 1 "X").value = none := by
  refine ⟨rfl, rfl, rfl, rfl⟩

/-- C2 amended: every cache-missing resolution of a non-empty query -- success
or failure alike -- writes its returned value to the cache keyed by the exact
query string with expiry `now + ttl`, and a subsequent resolve of the same
query within the TTL window returns that stored value with zero network
calls, no matter how the provider would now behave. -/
theorem all_results_cached_within_ttl (provider : Nat → AttemptResult)
    (c : Cache) (t : Nat) (q : String) (hq : q ≠ "")
    (hmiss : cacheLookup c q t = none) :
    cacheFind (resolveLocation provider c t q).cache q =
      some ⟨(resolveLocation provider c t q).value, t + ttlSeconds⟩ ∧
    ∀ (p2 : Nat → AttemptResult) (t1 : Nat), t1 < t + ttlSeconds →
      resolveLocation p2 (resolveLocation provider c t q).cache t1 q =
        ⟨(resolveLocation provider c t q).value, 0, 0, 0,
          (resolveLocation provider c t q).cache⟩ := by
  rw [resolveLocation_ne provider c t q hq,
    geocode_location_miss provider c t q defaultRetries hmiss]
  refine ⟨cacheFind_insert_self c q _, ?_⟩
  intro p2 t1 ht1
  rw [resolveLocation_ne p2 _ t1 q hq]
  exact geocode_location_hit p2 _ t1 q defaultRetries _
    (by simp [cacheLookup, cacheFind_insert_self, ht1])

/-- C2 amended, witness: the failing provider scenario instantiates the
amended theorem at query "X", empty cache, time 0. -/
theorem all_results_cached_within_ttl_witness :
    cacheFind (resolveLocation alwaysOtherError [] 0 "X").cache "X" =
      some ⟨(resolveLocation alwaysOtherError [] 0 "X").value, 0 + ttlSeconds⟩ :=
  (all_results_cached_within_ttl alwaysOtherError [] 0 "X" (by decide) rfl).1

/-- C8: a query resolved successfully once (on a cache miss) is answered from
the cache within the TTL window: the identical coordinate comes back with
zero network calls, whatever the provider would now do; and resolving some
other query never disturbs the cache entry of the first query -- each entry is
keyed strictly by its own exact query string. -/
theorem cache_hit_and_key_isolation :
    (∀ (p p2 : Nat → AttemptResult) (c0 : Cache) (t0 t1 : Nat) (q : String)
      (coord : Coordinate), q ≠ "" → cacheLookup c0 q t0 = none →
      (resolveLocation p c0 t0 q).value = some coord →
      t1 < t0 + ttlSeconds →
      (resolveLocation p2 (resolveLocation p c0 t0 q).cache t1 q).value = some coord ∧
      (resolveLocation p2 (resolveLocation p c0 t0 q).cache t1 q).calls = 0) ∧
    (∀ (p p2 : Nat → AttemptResult) (c0 : Cache) (t0 t1 : Nat) (q1 q2 : String),
      q1 ≠ q2 →
      cacheFind (resolveLocation p2 (resolveLocation p c0 t0 q1).cache t1 q2).cache q1 =
        cacheFind (resolveLocation p c0 t0 q1).cache q1) := by
  constructor
  · intro p p2 c0 t0 t1 q coord hq hmiss hval ht1
    have h := (all_results_cached_within_ttl p c0 t0 q hq hmiss).2 p2 t1 ht1
    rw [h]
    exact ⟨hval, rfl⟩
  · intro p p2 c0 t0 t1 q1 q2 h
    exact resolveLocation_cacheFind_other p2 _ t1 q2 q1 (fun he => h he.symm)

/-- C8 witness: resolving "X" at time 0 against an always-successful provider
then re-resolving at time 1 returns coordinate (1, 1) with zero calls. -/
theorem cache_hit_and_key_isolation_witness :
    (resolveLocation alwaysTimeout (resolveLocation alwaysOk11 [] 0 "X").cache 1 "X").value =
      some ⟨1, 1⟩ ∧
    (resolveLocation alwaysTimeout (resolveLocation alwaysOk11 [] 0 "X").cache 1 "X").calls = 0 :=
  cache_hit_and_key_isolation.1 alwaysOk11 alwaysTimeout [] 0 1 "X" ⟨1, 1⟩
    (by decide) rfl rfl (by decide)

theorem geocodeAttempts_calls_le (provider : Nat → AttemptResult) :
    ∀ (r i : Nat), (geocodeAttempts provider i r).calls ≤ r := by
  intro r
  induction r with
  | zero => intro i; exact Nat.le_refl 0
  | succ r ih =>
    intro i
    rcases hp : provider i with c | _ | _ | _ <;>
      simp only [geocodeAttempts, hp]
    · exact Nat.succ_le_succ (Nat.zero_le r)
    · by_cases hr : 0 < r
      · simp only [hr, if_true]
        exact Nat.succ_le_succ (ih (i + 1))
      · simp only [hr, if_false]
        exact Nat.succ_le_succ (Nat.zero_le r)
    · by_cases hr : 0 < r
      · simp only [hr, if_true]
        exact Nat.succ_le_succ (ih (i + 1))
      · simp only [hr, if_false]
        exact Nat.succ_le_succ (Nat.zero_le r)
    · exact Nat.succ_le_succ (Nat.zero_le r)

theorem geocodeAttempts_retry_reason (provider : Nat → AttemptResult) :
    ∀ (r i j : Nat), j + 2 ≤ (geocodeAttempts provider i r).calls →
      provider (i + j) = .geocoderTimedOut ∨
      provider (i + j) = .geocoderServiceError := by
  intro r
  induction r with
  | zero => intro i j hj; simp [geocodeAttempts] at hj
  | succ r ih =>
    intro i j hj
    rcases hp : provider i with c | _ | _ | _ <;>
      simp only [geocodeAttempts, hp] at hj
    · omega
    · by_cases hr : 0 < r
      · simp only [hr, if_true] at hj
        rcases j with _ | j
        · exact Or.inl (by simpa using hp)
        · have := ih (i + 1) j (by omega)
          have harr : i + (j + 1) = i + 1 + j := by omega
          rw [harr]
          exact this
      · simp only [hr, if_false] at hj; omega
    · by_cases hr : 0 < r
      · simp only [hr, if_true] at hj
        rcases j with _ | j
        · exact Or.inr (by simpa using hp)
        · have := ih (i + 1) j (by omega)
          have harr : i + (j + 1) = i + 1 + j := by omega
          rw [harr]
          exact this
      · simp only [hr, if_false] at hj; omega
    · omega

theorem geocodeAttempts_other_immediate (provider : Nat → AttemptResult) :
    ∀ (r i j : Nat), j < (geocodeAttempts provider i r).calls →
      provider (i + j) = .otherException →
      (geocodeAttempts provider i r).calls = j + 1 ∧
      (geocodeAttempts provider i r).value = none ∧
      (geocodeAttempts provider i r).errors = 1 := by
  intro r
  induction r with
  | zero => intro i j hj _; simp [geocodeAttempts] at hj
  | succ r ih =>
    intro i j hj hpj
    rcases hp : provider i with c | _ | _ | _ <;>
      simp only [geocodeAttempts, hp] at hj ⊢
    · have hj0 : j = 0 := by omega
      rw [hj0, Nat.add_zero] at hpj
      rw [hp] at hpj
      exact absurd hpj (by simp)
    · by_cases hr : 0 < r
      · simp only [hr, if_true] at hj ⊢
        rcases j with _ | j
        · rw [Nat.add_zero] at hpj
          rw [hp] at hpj
          exact absurd hpj (by simp)
        · have harr : i + (j + 1) = i + 1 + j := by omega
          rw [harr] at hpj
          have := ih (i + 1) j (by omega) hpj
          exact ⟨by omega, this.2.1, this.2.2⟩
      · simp only [hr, if_false] at hj ⊢
        have hj0 : j = 0 := by omega
        rw [hj0, Nat.add_zero] at hpj
        rw [hp] at hpj
        exact absurd hpj (by simp)
    · by_cases hr : 0 < r
      · simp only [hr, if_true] at hj ⊢
        rcases j with _ | j
        · rw [Nat.add_zero] at hpj
          rw [hp] at hpj
          exact absurd hpj (by simp)
        · have harr : i + (j + 1) = i + 1 + j := by omega
          rw [harr] at hpj
          have := ih (i + 1) j (by omega) hpj
          exact ⟨by omega, this.2.1, this.2.2⟩
      · simp only [hr, if_false] at hj ⊢
        have hj0 : j = 0 := by omega
        rw [hj0, Nat.add_zero] at hpj
        rw [hp] at hpj
        exact absurd hpj (by simp)
    · exact ⟨by omega, trivial, trivial⟩

/-- C4: for a non-empty query, resolution makes at most the default 3 network
attempts; an attempt is ever followed by another one only when it failed with
`GeocoderTimedOut` or `GeocoderServiceError`; and any other exception on a
performed attempt ends the resolution immediately with an absent value and a
single error message, no retry. -/
theorem retry_policy_and_attempt_bound (provider : Nat → AttemptResult)
    (c : Cache) (t : Nat) (q : String) (hq : q ≠ "") :
    (resolveLocation provider c t q).calls ≤ defaultRetries ∧
    (∀ j, j + 2 ≤ (resolveLocation provider c t q).calls →
      provider j = .geocoderTimedOut ∨ provider j = .geocoderServiceError) ∧
    (∀ j, j < (resolveLocation provider c t q).calls →
      provider j = .otherException →
      (resolveLocation provider c t q).calls = j + 1 ∧
      (resolveLocation provider c t q).value = none ∧
      (resolveLocation provider c t q).errors = 1) := by
  rw [resolveLocation_ne provider c t q hq]
  rcases hl : cacheLookup c q t with _ | v
  · rw [geocode_location_miss provider c t q defaultRetries hl]
    refine ⟨geocodeAttempts_calls_le provider defaultRetries 0, ?_, ?_⟩
    · intro j hj
      have := geocodeAttempts_retry_reason provider defaultRetries 0 j hj
      simpa using this
    · intro j hj hpj
      have := geocodeAttempts_other_immediate provider defaultRetries 0 j hj
        (by simpa using hpj)
      exact this
  · rw [geocode_location_hit provider c t q defaultRetries v hl]
    exact ⟨Nat.zero_le _, fun j hj => by simp at hj, fun j hj _ => by simp at hj⟩

/-- C4 witness: a provider that always raises a non-retryable exception,
query "X", empty cache: the attempt bound instantiates concretely. -/
theorem retry_policy_and_attempt_bound_witness :
    (resolveLocation alwaysOtherError [] 0 "X").calls ≤ defaultRetries ∧
    (resolveLocation alwaysOtherError [] 0 "X").calls = 1 :=
  ⟨(retry_policy_and_attempt_bound alwaysOtherError [] 0 "X" (by decide)).1,
    ((retry_policy_and_attempt_bound alwaysOtherError [] 0 "X" (by decide)).2.2 0
      (by decide) rfl).1⟩

/-- C10: when the provider succeeds on the first attempt but finds no match,
resolution returns an absent coordinate after exactly one network call with
no retry, no warning and no error; and at the public interface this value is
identical to the one produced when all retries are exhausted by timeouts and
to the one produced by a non-retryable provider exception. -/
theorem not_found_indistinguishable_from_failures :
    (resolveLocation alwaysNotFound [] 0 "Atlantis").value = none ∧
    (resolveLocation alwaysNotFound [] 0 "Atlantis").calls = 1 ∧
    (resolveLocation alwaysNotFound [] 0 "Atlantis").warnings = 0 ∧
    (resolveLocation alwaysNotFound [] 0 "Atlantis").errors = 0 ∧
    (resolveLocation alwaysTimeout [] 0 "Atlantis").value =
      (resolveLocation alwaysNotFound [] 0 "Atlantis").value ∧
    (resolveLocation alwaysOtherError [] 0 "Atlantis").value =
      (resolveLocation alwaysNotFound [] 0 "Atlantis").value := by
  refine ⟨rfl, rfl, rfl, rfl, rfl, rfl⟩

/-- C1 counterexample: the session holds a (truthy) itinerary, both geocode
resolutions fail with a provider exception, and the itinerary is NOT
displayed -- only the informational prompt is -- because its `st.markdown`
call sits inside the map branch. -/
theorem itinerary_hidden_when_both_geocodes_fail_cex :
    itineraryTruthy (some "Day 1: museum") = true ∧
    (runPage alwaysOtherError alwaysOtherError [] 0 "Paris" "Rome"
      (some "Day 1: museum")).1.itineraryShown = false ∧
    (runPage alwaysOtherError alwaysOtherError [] 0 "Paris" "Rome"
      (some "Day 1: museum")).1.infoShown = true := by
  refine ⟨rfl, rfl, rfl⟩

/-- C1 amended: the stored itinerary is displayed exactly when it is truthy
AND at least one of the two geocode resolutions produced a coordinate; when
both fail the itinerary is not displayed. A failure of one resolution still
never blocks the other resolution or the display of the map and itinerary. -/
theorem itinerary_shown_iff_some_coordinate (s d : Option Coordinate)
    (n1 n2 : String) (itin : Option String) :
    (renderMapSection s d n1 n2 itin).itineraryShown =
      (itineraryTruthy itin && (s.isSome || d.isSome)) := by
  rcases s with _ | cs <;> rcases d with _ | cd <;>
    simp [renderMapSection, buildMap]

/-- C3 counterexample: a coordinate with latitude 100 (outside [-90, 90]) is
not treated as absent: it flows straight into the map descriptor as center
and marker, unlike the both-absent case which yields no map. -/
theorem out_of_range_coordinate_reaches_map_cex :
    buildMap (some ⟨100, 0⟩) none "A" "B" =
      some ⟨⟨100, 0⟩, 10, [⟨⟨100, 0⟩, "A", none⟩], none⟩ ∧
    buildMap (some ⟨100, 0⟩) none "A" "B" ≠ buildMap none none "A" "B" := by
  refine ⟨by simp [buildMap], by simp [buildMap]⟩

/-- C3 amended: no defensive range check exists anywhere between geocoding
and map construction: a present coordinate is used as-is, even when its
latitude or longitude lies outside the valid range, rather than being
treated as absent. -/
theorem no_range_check_coordinate_used_as_is (c : Coordinate) (n1 n2 : String)
    (hout : 90 < c.latitude ∨ c.latitude < -90 ∨
      180 < c.longitude ∨ c.longitude < -180) :
    buildMap (some c) none n1 n2 = some ⟨c, 10, [⟨c, n1, none⟩], none⟩ ∧
    buildMap none (some c) n1 n2 = some ⟨c, 10, [⟨c, n2, some "red"⟩], none⟩ := by
  constructor <;> simp [buildMap]

/-- C3 amended, witness: instantiated at latitude 100. -/
theorem no_range_check_coordinate_used_as_is_witness :
    buildMap (some ⟨100, 0⟩) none "A" "B" =
      some ⟨⟨100, 0⟩, 10, [⟨⟨100, 0⟩, "A", none⟩], none⟩ :=
  (no_range_check_coordinate_used_as_is ⟨100, 0⟩ "A" "B"
    (Or.inl (by norm_num))).1

end TravelPlanner
